import Mathlib

/-!
Shallow embedding of the `health` package of scinfra-bot
(`internal/webhook/server.go`, `package health` section, together with the
configuration helpers from `internal/config`).

Modelling conventions:
* Go `float64` resource values (percentages, bytes, load averages) are
  modelled as `ℚ`; every comparison the checker performs on them is exact.
* Go `time.Duration` and timestamps are modelled as `Int` (`time.Since t`
  becomes `now - t`); the TTL constant keeps its value 60 (seconds).
* Go maps that the checker only reads through key lookup are modelled as
  association lists with key-replacing insertion (`cacheInsert`).
  `GetUpstreamByIP` iterates a Go map whose order is unspecified; the model
  fixes the declaration order of the `upstreams` list.
* Network-facing collaborators (the Prometheus client, the switch-gate SSH
  client, the HTTP/TCP probes) and the standard-library function
  `time.ParseDuration` are modelled as an oracle `Env` supplied per call:
  each oracle returns either the parsed value or a Go error (`Except String`
  with the error text).  The checker's own logic is embedded verbatim.
-/

/-- `config.ServiceConfig`: a service running on a server. -/
structure ServiceConfig where
  name : String
  job : String
  port : Int
  deriving DecidableEq, Repr

/-- `config.ServerConfig`: a server to monitor.  The `prometheusInstance`
field is read by `checkPrometheusServer` (`server.PrometheusInstance`);
its declaration is not part of the sources at hand, so the field is
modelled from the spec: an optional explicit metrics-instance label, the
server's display name being the fallback when it is empty. -/
structure ServerConfig where
  id : String
  name : String
  icon : String
  ip : String
  externalCheck : String
  prometheusInstance : String
  services : List ServiceConfig
  deriving DecidableEq, Repr

/-- `config.CloudConfig`: a cloud provider with servers. -/
structure CloudConfig where
  name : String
  icon : String
  servers : List ServerConfig
  deriving DecidableEq, Repr

/-- `config.InfrastructureConfig`. -/
structure InfrastructureConfig where
  enabled : Bool
  prometheusURL : String
  clouds : List CloudConfig
  deriving DecidableEq, Repr

/-- `config.Upstream`: a VPS upstream server. -/
structure Upstream where
  name : String
  ip : String
  user : String
  switchGate : Bool
  switchGatePort : Int
  deriving DecidableEq, Repr

/-- `config.Config`, restricted to the fields the health checker reads
(`Upstreams` and `Infrastructure`; the Telegram/Edge/Webhooks/Logging/S3
sections are never touched by the checker). -/
structure Config where
  upstreams : List (String × Upstream)
  infrastructure : InfrastructureConfig
  deriving DecidableEq, Repr

/-- `Config.GetServer`: first server whose ID matches, scanning clouds in
declaration order. -/
def Config.GetServer (c : Config) (serverID : String) : Option ServerConfig :=
  c.infrastructure.clouds.foldl
    (fun acc cloud => acc.orElse
      (fun _ => cloud.servers.find? (fun s => s.id = serverID))) none

/-- `Config.GetServerCloud`: name of the first cloud containing a server
with the given ID, `""` when none does. -/
def Config.GetServerCloud (c : Config) (serverID : String) : String :=
  match c.infrastructure.clouds.find?
      (fun cloud => cloud.servers.any (fun s => s.id = serverID)) with
  | some cloud => cloud.name
  | none => ""

/-- `Config.GetUpstreamByIP`: key of an upstream with the given IP, `""`
when none matches (Go iterates the map in unspecified order; the model
takes the first match in list order). -/
def Config.GetUpstreamByIP (c : Config) (ip : String) : String :=
  match c.upstreams.find? (fun ku => ku.2.ip = ip) with
  | some ku => ku.1
  | none => ""

/-- `Config.IsSwitchGateServer`: some upstream has this IP and the
switch-gate flag set. -/
def Config.IsSwitchGateServer (c : Config) (ip : String) : Bool :=
  c.upstreams.any (fun ku => ku.2.ip = ip && ku.2.switchGate)

/-- `health.ServiceStatus`. -/
structure ServiceStatus where
  name : String
  job : String
  port : Int
  isUp : Bool
  error : String
  deriving DecidableEq, Repr

/-- `health.ServerStatus`.  Resource values are ℚ, durations Int. -/
structure ServerStatus where
  id : String
  name : String
  icon : String
  cloudName : String
  cloudIcon : String
  ip : String
  isUp : Bool
  cpu : ℚ
  memory : ℚ
  disk : ℚ
  memoryUsedGB : ℚ
  memoryTotalGB : ℚ
  diskUsedGB : ℚ
  diskTotalGB : ℚ
  uptime : Int
  externalAccess : Bool
  externalLatency : Int
  externalError : String
  services : List ServiceStatus
  deriving DecidableEq, Repr

/-- `health.StatusLevel` is a string type in Go. -/
abbrev StatusLevel := String

/-- `health.StatusUp`. -/
def StatusUp : StatusLevel := "up"

/-- `health.StatusDegraded`. -/
def StatusDegraded : StatusLevel := "degraded"

/-- `health.StatusDown`. -/
def StatusDown : StatusLevel := "down"

/-- `(*ServerStatus).GetStatusLevel`: Down when not up; Degraded on a
resource threshold or any down service (the Go `for` loop with an early
return is the list `any`); Up otherwise. -/
def ServerStatus.GetStatusLevel (s : ServerStatus) : StatusLevel :=
  if !s.isUp then
    StatusDown
  else if s.cpu > 80 ∨ s.memory > 85 ∨ s.disk > 85 then
    StatusDegraded
  else if s.services.any (fun svc => !svc.isUp) then
    StatusDegraded
  else
    StatusUp

/-- Number of filled cells of the progress bar: Go computes
`int(percent / 100 * float64(width))` after clamping; conversion `int(_)`
truncates toward zero, which on the clamped non-negative value is the
floor. -/
def progressFilled (percent : ℚ) (width : ℕ) : ℕ :=
  let p := if percent < 0 then 0 else if percent > 100 then 100 else percent
  (Int.floor (p / 100 * (width : ℚ))).toNat

/-- `health.FormatProgressBar`.  `width` is a Go `int`; it is modelled as ℕ
because `strings.Repeat` rejects negative counts (every call site passes a
positive literal). -/
def FormatProgressBar (percent : ℚ) (width : ℕ) : String :=
  let filled := progressFilled percent width
  let empty := width - filled
  String.mk (List.replicate filled '▓' ++ List.replicate empty '░')

/-- `switchgate.TrafficStats`. -/
structure TrafficStats where
  directMB : ℚ
  warpMB : ℚ
  homeMB : ℚ
  totalMB : ℚ
  deriving DecidableEq, Repr

/-- `switchgate.HomeStats`. -/
structure HomeStats where
  limitMB : Int
  usedMB : ℚ
  remainingMB : ℚ
  costUSD : ℚ
  deriving DecidableEq, Repr

/-- `switchgate.Status`: the remote agent's status document. -/
structure SGStatus where
  mode : String
  modeHealthy : Option Bool
  modeError : Option String
  uptime : String
  connections : Int
  traffic : TrafficStats
  home : HomeStats
  available : List String
  deriving DecidableEq, Repr

/-- Modelled from the spec: the node-metrics snapshot returned by the
switch-gate client's `GetNodeMetrics` (its declaration is not among the
sources at hand; the fields are exactly those the checker reads —
memory used/total, disk used/total, 1-minute load average). -/
structure NodeMetrics where
  memoryUsedPercent : ℚ
  memoryUsedBytes : ℚ
  memoryTotalBytes : ℚ
  diskUsedPercent : ℚ
  diskUsedBytes : ℚ
  diskTotalBytes : ℚ
  load1 : ℚ
  deriving DecidableEq, Repr

/-- Oracle for every network-facing collaborator of the checker and for
`time.ParseDuration`.  A Go `(value, error)` pair becomes `Except String`
carrying the error text; `IsServiceUp` is kept as a pair because the
checker uses its boolean even when the error is non-nil. -/
structure Env where
  promIsUp : String → Except String Bool
  promGetCPU : String → Except String ℚ
  promGetMemory : String → Except String ℚ
  promGetMemoryBytes : String → Except String (ℚ × ℚ)
  promGetDisk : String → Except String ℚ
  promGetDiskBytes : String → Except String (ℚ × ℚ)
  promGetUptime : String → Except String Int
  promIsServiceUp : String → String → Bool × Option String
  sgGetStatus : String → Except String SGStatus
  sgGetNodeMetrics : String → Except String NodeMetrics
  checkExternal : String → Bool × Int × Option String
  parseDuration : String → Option Int

/-- `health.Checker`: configuration, the set of upstream keys that have a
switch-gate client, and the cache (map, shared timestamp, TTL).  The
Prometheus and HTTP clients live in `Env`. -/
structure Checker where
  config : Config
  switchGateClients : List String
  cache : List (String × ServerStatus)
  cacheTime : Int
  cacheTTL : Int
  deriving Repr

/-- `health.DefaultCacheTTL` (60 seconds). -/
def DefaultCacheTTL : Int := 60

/-- Lookup in the cache map. -/
def cacheLookup (m : List (String × ServerStatus)) (k : String) :
    Option ServerStatus :=
  match m.find? (fun kv => kv.1 = k) with
  | some kv => some kv.2
  | none => none

/-- Key-replacing insertion, the Go `c.cache[id] = status`. -/
def cacheInsert (m : List (String × ServerStatus)) (k : String)
    (v : ServerStatus) : List (String × ServerStatus) :=
  match m with
  | [] => [(k, v)]
  | kv :: rest =>
    if kv.1 = k then (k, v) :: rest else kv :: cacheInsert rest k v

/-- The zero-valued `ServerStatus` the per-server check starts from, with
the identity fields filled in (`checkServer`'s struct literal). -/
def initialStatus (server : ServerConfig) (cloudName cloudIcon : String) :
    ServerStatus :=
  { id := server.id
    name := server.name
    icon := server.icon
    cloudName := cloudName
    cloudIcon := cloudIcon
    ip := server.ip
    isUp := false
    cpu := 0
    memory := 0
    disk := 0
    memoryUsedGB := 0
    memoryTotalGB := 0
    diskUsedGB := 0
    diskTotalGB := 0
    uptime := 0
    externalAccess := false
    externalLatency := 0
    externalError := ""
    services := [] }

/-- `(*Checker).checkPrometheusServer`: up-gauge first (an error forces
down), resource queries only when up with each failure absorbed, then the
per-service loop. -/
def checkPrometheusServer (env : Env) (status : ServerStatus)
    (server : ServerConfig) : ServerStatus :=
  let promInstance :=
    if server.prometheusInstance = "" then server.name
    else server.prometheusInstance
  let status :=
    match env.promIsUp promInstance with
    | .error _ => { status with isUp := false }
    | .ok isUp => { status with isUp := isUp }
  let status :=
    if status.isUp then
      let status :=
        match env.promGetCPU promInstance with
        | .ok cpu => { status with cpu := cpu }
        | .error _ => status
      let status :=
        match env.promGetMemory promInstance with
        | .ok mem => { status with memory := mem }
        | .error _ => status
      let status :=
        match env.promGetMemoryBytes promInstance with
        | .ok ut =>
          { status with
            memoryUsedGB := ut.1 / (1024 * 1024 * 1024)
            memoryTotalGB := ut.2 / (1024 * 1024 * 1024) }
        | .error _ => status
      let status :=
        match env.promGetDisk promInstance with
        | .ok disk => { status with disk := disk }
        | .error _ => status
      let status :=
        match env.promGetDiskBytes promInstance with
        | .ok ut =>
          { status with
            diskUsedGB := ut.1 / (1024 * 1024 * 1024)
            diskTotalGB := ut.2 / (1024 * 1024 * 1024) }
        | .error _ => status
      let status :=
        match env.promGetUptime promInstance with
        | .ok uptime => { status with uptime := uptime }
        | .error _ => status
      status
    else status
  let services := server.services.map (fun svc =>
    if svc.job ≠ "" then
      let r := env.promIsServiceUp svc.job promInstance
      { name := svc.name, job := svc.job, port := svc.port
        isUp := r.1
        error := match r.2 with | some e => e | none => "" }
    else
      { name := svc.name, job := svc.job, port := svc.port
        isUp := status.isUp, error := "" })
  { status with services := status.services ++ services }

/-- Per-service classification of the switch-gate path: the agent and
`gost` are up because a status came back, `node_exporter` iff the
memory-percent field is positive, anything else defaults to up. -/
def sgServiceStatus (svc : ServiceConfig) (memory : ℚ) : ServiceStatus :=
  { name := svc.name, job := "", port := svc.port
    isUp :=
      if svc.name = "switch-gate" then true
      else if svc.name = "gost" then true
      else if svc.name = "node_exporter" then decide (memory > 0)
      else true
    error := "" }

/-- The uptime-parsing block of `checkSwitchGateServer`: a best-effort
`time.ParseDuration` whose failure (or an empty string) changes nothing. -/
def sgApplyUptime (env : Env) (sgStatus : SGStatus) (status : ServerStatus) :
    ServerStatus :=
  if sgStatus.uptime ≠ "" then
    match env.parseDuration sgStatus.uptime with
    | some uptime => { status with uptime := uptime }
    | none => status
  else status

/-- The node-metrics block of `checkSwitchGateServer`: on success fill the
memory/disk fields and approximate CPU by `load1 * 100` capped at 100; a
failure changes nothing. -/
def sgApplyNodeMetrics (env : Env) (upstreamKey : String)
    (status : ServerStatus) : ServerStatus :=
  match env.sgGetNodeMetrics upstreamKey with
  | .ok nm =>
    let status :=
      { status with
        memory := nm.memoryUsedPercent
        memoryUsedGB := nm.memoryUsedBytes / (1024 * 1024 * 1024)
        memoryTotalGB := nm.memoryTotalBytes / (1024 * 1024 * 1024)
        disk := nm.diskUsedPercent
        diskUsedGB := nm.diskUsedBytes / (1024 * 1024 * 1024)
        diskTotalGB := nm.diskTotalBytes / (1024 * 1024 * 1024)
        cpu := nm.load1 * 100 }
    if status.cpu > 100 then { status with cpu := 100 } else status
  | .error _ => status

/-- `(*Checker).checkSwitchGateServer`: missing client → down and return;
`GetStatus` failure → down with one synthetic `switch-gate` entry carrying
the error text; success → up, best-effort uptime parse and node metrics,
then the declared services mapped by `sgServiceStatus`. -/
def checkSwitchGateServer (env : Env) (clients : List String)
    (status : ServerStatus) (server : ServerConfig) (upstreamKey : String) :
    ServerStatus :=
  if ¬ upstreamKey ∈ clients then
    { status with isUp := false }
  else
    match env.sgGetStatus upstreamKey with
    | .error e =>
      { status with
        isUp := false
        services := status.services ++
          [{ name := "switch-gate", job := "", port := 9090
             isUp := false, error := e }] }
    | .ok sgStatus =>
      let status := { status with isUp := true }
      let status := sgApplyUptime env sgStatus status
      let status := sgApplyNodeMetrics env upstreamKey status
      { status with
        services := status.services ++
          server.services.map (fun svc => sgServiceStatus svc status.memory) }

/-- The external-accessibility block of `checkServer`: run the configured
probe, or mirror the up-flag when none is configured. -/
def applyExternalCheck (env : Env) (server : ServerConfig)
    (status : ServerStatus) : ServerStatus :=
  if server.externalCheck ≠ "" then
    let r := env.checkExternal server.externalCheck
    { status with
      externalAccess := r.1
      externalLatency := r.2.1
      externalError := match r.2.2 with
        | some e => e
        | none => status.externalError }
  else
    { status with externalAccess := status.isUp }

/-- `(*Checker).checkServer`: source selection (switch-gate when the IP
matches a tunnel-flagged upstream, Prometheus otherwise) followed by the
external accessibility check. -/
def checkServer (env : Env) (cfg : Config) (clients : List String)
    (server : ServerConfig) (cloudName cloudIcon : String) : ServerStatus :=
  let status := initialStatus server cloudName cloudIcon
  let upstreamKey := cfg.GetUpstreamByIP server.ip
  let status :=
    if upstreamKey ≠ "" ∧ cfg.IsSwitchGateServer server.ip then
      checkSwitchGateServer env clients status server upstreamKey
    else
      checkPrometheusServer env status server
  applyExternalCheck env server status

/-- `(*Checker).isCacheValid`: an empty map is never valid; otherwise the
age of the shared timestamp must be below the TTL. -/
def Checker.isCacheValid (c : Checker) (now : Int) : Bool :=
  if c.cache.length = 0 then false
  else decide (now - c.cacheTime < c.cacheTTL)

/-- `(*Checker).getCachedStatuses`: walk the configuration in
cloud-then-declaration order and collect the cached entries. -/
def Checker.getCachedStatuses (c : Checker) : List ServerStatus :=
  c.config.infrastructure.clouds.foldl
    (fun acc cloud =>
      cloud.servers.foldl
        (fun acc server =>
          match cacheLookup c.cache server.id with
          | some status => acc ++ [status]
          | none => acc)
        acc)
    []

/-- One iteration of `refreshAll`'s inner loop: check the server, append
its status, write it into the cache. -/
def refreshStep (env : Env) (cfg : Config) (clients : List String)
    (cloudName cloudIcon : String)
    (acc : List ServerStatus × List (String × ServerStatus))
    (server : ServerConfig) :
    List ServerStatus × List (String × ServerStatus) :=
  let status := checkServer env cfg clients server cloudName cloudIcon
  (acc.1 ++ [status], cacheInsert acc.2 server.id status)

/-- `(*Checker).refreshAll`: fetch every configured server in
cloud-then-declaration order, writing each status into the cache, then
stamp the cache time; Go returns `(statuses, nil)`. -/
def Checker.refreshAll (c : Checker) (env : Env) (now : Int) :
    Except String (List ServerStatus) × Checker :=
  let r := c.config.infrastructure.clouds.foldl
    (fun acc cloud =>
      cloud.servers.foldl
        (refreshStep env c.config c.switchGateClients cloud.name cloud.icon)
        acc)
    ([], c.cache)
  (.ok r.1, { c with cache := r.2, cacheTime := now })

/-- `(*Checker).CheckAll`: cached list when the cache is valid, otherwise
a full refresh. -/
def Checker.CheckAll (c : Checker) (env : Env) (now : Int) :
    Except String (List ServerStatus) × Checker :=
  if c.isCacheValid now then (.ok (c.getCachedStatuses), c)
  else c.refreshAll env now

/-- `(*Checker).CheckAllForce`: always refreshes. -/
def Checker.CheckAllForce (c : Checker) (env : Env) (now : Int) :
    Except String (List ServerStatus) × Checker :=
  c.refreshAll env now

/-- `(*Checker).checkServerForce` (unexported): unknown ID is the one hard
error; otherwise resolve the cloud name/icon (default icon when the cloud
is not found) and run the per-server check.  It does not touch the cache,
so the checker state is returned unchanged. -/
def Checker.checkServerForceImpl (c : Checker) (env : Env)
    (serverID : String) : Except String ServerStatus × Checker :=
  match c.config.GetServer serverID with
  | none => (.error ("server not found: " ++ serverID), c)
  | some server =>
    let cloudName := c.config.GetServerCloud serverID
    let cloudIcon :=
      match c.config.infrastructure.clouds.find?
          (fun cloud => cloud.name = cloudName) with
      | some cloud => cloud.icon
      | none => "☁️"
    (.ok (checkServer env c.config c.switchGateClients server
      cloudName cloudIcon), c)

/-- `(*Checker).CheckServerForce`. -/
def Checker.CheckServerForce (c : Checker) (env : Env) (serverID : String) :
    Except String ServerStatus × Checker :=
  c.checkServerForceImpl env serverID

/-- `(*Checker).CheckServer`: the cached entry when the fleet-wide cache
is valid and holds the ID, otherwise a single-server force fetch. -/
def Checker.CheckServer (c : Checker) (env : Env) (now : Int)
    (serverID : String) : Except String ServerStatus × Checker :=
  if c.isCacheValid now then
    match cacheLookup c.cache serverID with
    | some status => (.ok status, c)
    | none => c.checkServerForceImpl env serverID
  else
    c.checkServerForceImpl env serverID

/-- `(*Checker).InvalidateCache`: fresh empty map, zero timestamp. -/
def Checker.InvalidateCache (c : Checker) : Checker :=
  { c with cache := [], cacheTime := 0 }

/-- The configuration rows of one refresh pass: every server paired with
its cloud's name and icon, in cloud-then-declaration order. -/
def configRows (cfg : Config) : List (ServerConfig × String × String) :=
  cfg.infrastructure.clouds.flatMap
    (fun cloud => cloud.servers.map (fun s => (s, cloud.name, cloud.icon)))

/-- The configured server IDs in cloud-then-declaration order. -/
def configServerIDs (cfg : Config) : List String :=
  (configRows cfg).map (fun row => row.1.id)

/-- The clamped percentage used by the progress bar. -/
lemma progressFilled_clamp_mono {p q : ℚ} (h : p ≤ q) :
    (if p < 0 then 0 else if p > 100 then (100 : ℚ) else p)
      ≤ (if q < 0 then 0 else if q > 100 then 100 else q) := by
  split_ifs <;> linarith

lemma progressFilled_mono {p q : ℚ} (w : ℕ) (h : p ≤ q) :
    progressFilled p w ≤ progressFilled q w := by
  unfold progressFilled
  have hc := progressFilled_clamp_mono h
  have hmul : (if p < 0 then 0 else if p > 100 then (100 : ℚ) else p) / 100 * w
      ≤ (if q < 0 then 0 else if q > 100 then (100 : ℚ) else q) / 100 * w := by
    apply mul_le_mul_of_nonneg_right _ (by positivity)
    exact div_le_div_of_nonneg_right hc (by norm_num)
  exact Int.toNat_le_toNat (Int.floor_le_floor hmul)

lemma progressFilled_of_nonpos {p : ℚ} (w : ℕ) (h : p ≤ 0) :
    progressFilled p w = 0 := by
  have hc : (if p < 0 then 0 else if p > 100 then (100 : ℚ) else p) = 0 := by
    split_ifs with h1 h2 <;> linarith
  simp only [progressFilled, hc]
  norm_num

lemma progressFilled_of_ge {p : ℚ} (w : ℕ) (h : 100 ≤ p) :
    progressFilled p w = w := by
  have hc : (if p < 0 then 0 else if p > 100 then (100 : ℚ) else p) = 100 := by
    split_ifs with h1 h2 <;> linarith
  simp only [progressFilled, hc]
  norm_num

lemma formatProgressBar_count (p : ℚ) (w : ℕ) :
    (FormatProgressBar p w).data.count '▓' = progressFilled p w := by
  have hne : ('░' : Char) ≠ '▓' := by decide
  simp [FormatProgressBar, List.count_append, List.count_replicate, hne]

/-- C8: `FormatProgressBar` is monotonic in its percent argument for every
fixed width (the number of filled cells never decreases as the percentage
grows), and clamped: every percentage ≤ 0 renders the all-empty bar and
every percentage ≥ 100 renders the all-filled bar. -/
theorem formatProgressBar_monotone_clamped :
    (∀ (p₁ p₂ : ℚ) (w : ℕ), p₁ ≤ p₂ →
      (FormatProgressBar p₁ w).data.count '▓'
        ≤ (FormatProgressBar p₂ w).data.count '▓')
    ∧ (∀ (p : ℚ) (w : ℕ), p ≤ 0 →
      FormatProgressBar p w = String.mk (List.replicate w '░'))
    ∧ (∀ (p : ℚ) (w : ℕ), 100 ≤ p →
      FormatProgressBar p w = String.mk (List.replicate w '▓')) := by
  refine ⟨fun p₁ p₂ w h => ?_, fun p w h => ?_, fun p w h => ?_⟩
  · rw [formatProgressBar_count, formatProgressBar_count]
    exact progressFilled_mono w h
  · simp [FormatProgressBar, progressFilled_of_nonpos w h]
  · simp [FormatProgressBar, progressFilled_of_ge w h]

theorem formatProgressBar_monotone_clamped_witness :
    ((30 : ℚ) ≤ 60 ∧
      (FormatProgressBar 30 10).data.count '▓'
        ≤ (FormatProgressBar 60 10).data.count '▓')
    ∧ ((-5 : ℚ) ≤ 0 ∧
      FormatProgressBar (-5) 10 = String.mk (List.replicate 10 '░'))
    ∧ ((100 : ℚ) ≤ 120 ∧
      FormatProgressBar 120 10 = String.mk (List.replicate 10 '▓')) :=
  ⟨⟨by norm_num, formatProgressBar_monotone_clamped.1 30 60 10 (by norm_num)⟩,
   ⟨by norm_num, formatProgressBar_monotone_clamped.2.1 (-5) 10 (by norm_num)⟩,
   ⟨by norm_num, formatProgressBar_monotone_clamped.2.2 120 10 (by norm_num)⟩⟩

/-- C1: `GetStatusLevel` is the pure tri-state classification with strict
priority Down > Degraded > Up: Down whenever the up-flag is false
regardless of all other fields; otherwise Degraded exactly when
CPU > 80 or memory > 85 or disk > 85 or some declared service is down;
otherwise Up; and no value other than these three is ever returned. -/
theorem getStatusLevel_tristate (s : ServerStatus) :
    (s.isUp = false → s.GetStatusLevel = StatusDown)
    ∧ (s.isUp = true →
        (s.GetStatusLevel = StatusDegraded ↔
          (80 < s.cpu ∨ 85 < s.memory ∨ 85 < s.disk
            ∨ ∃ svc ∈ s.services, svc.isUp = false)))
    ∧ (s.isUp = true →
        (s.GetStatusLevel = StatusUp ↔
          (s.cpu ≤ 80 ∧ s.memory ≤ 85 ∧ s.disk ≤ 85
            ∧ ∀ svc ∈ s.services, svc.isUp = true)))
    ∧ (s.GetStatusLevel = StatusDown ∨ s.GetStatusLevel = StatusDegraded
        ∨ s.GetStatusLevel = StatusUp) := by
  have hgu : StatusDegraded ≠ StatusUp := by decide
  cases hu : s.isUp with
  | false =>
    have hl : s.GetStatusLevel = StatusDown := by
      unfold ServerStatus.GetStatusLevel
      rw [hu]
      rfl
    exact ⟨fun _ => hl, fun h => absurd h (by simp [hu]),
      fun h => absurd h (by simp [hu]), Or.inl hl⟩
  | true =>
    have hserv : (s.services.any fun svc => !svc.isUp) = true ↔
        ∃ svc ∈ s.services, svc.isUp = false := by
      simp [List.any_eq_true]
    by_cases h1 : s.cpu > 80 ∨ s.memory > 85 ∨ s.disk > 85
    · have hl : s.GetStatusLevel = StatusDegraded := by
        unfold ServerStatus.GetStatusLevel
        rw [hu]
        simp [h1]
      refine ⟨fun h => absurd h (by simp [hu]), fun _ => ?_, fun _ => ?_,
        Or.inr (Or.inl hl)⟩
      · rw [hl]
        exact ⟨fun _ => by tauto, fun _ => rfl⟩
      · rw [hl]
        refine ⟨fun h => absurd h hgu, ?_⟩
        rintro ⟨hc, hm, hd, _⟩
        exfalso
        rcases h1 with h | h | h <;> linarith
    · by_cases h2 : ∃ svc ∈ s.services, svc.isUp = false
      · have hl : s.GetStatusLevel = StatusDegraded := by
          unfold ServerStatus.GetStatusLevel
          rw [hu]
          simp [h1, hserv.mpr h2]
        refine ⟨fun h => absurd h (by simp [hu]), fun _ => ?_, fun _ => ?_,
          Or.inr (Or.inl hl)⟩
        · rw [hl]
          exact ⟨fun _ => by tauto, fun _ => rfl⟩
        · rw [hl]
          refine ⟨fun h => absurd h hgu, ?_⟩
          rintro ⟨hc, hm, hd, hup⟩
          obtain ⟨svc, hmem, hdown⟩ := h2
          rw [hup svc hmem] at hdown
          simp at hdown
      · have hany : (s.services.any fun svc => !svc.isUp) = false := by
          rw [Bool.eq_false_iff]
          intro hcontra
          exact h2 (hserv.mp hcontra)
        have hl : s.GetStatusLevel = StatusUp := by
          unfold ServerStatus.GetStatusLevel
          rw [hu]
          simp [h1, hany]
        push_neg at h1
        refine ⟨fun h => absurd h (by simp [hu]), fun _ => ?_, fun _ => ?_,
          Or.inr (Or.inr hl)⟩
        · rw [hl]
          refine ⟨fun h => absurd h.symm hgu, ?_⟩
          rintro (h | h | h | h)
          · linarith [h1.1]
          · linarith [h1.2.1]
          · linarith [h1.2.2]
          · exact absurd h h2
        · rw [hl]
          refine ⟨fun _ => ⟨h1.1, h1.2.1, h1.2.2, fun svc hs => ?_⟩,
            fun _ => rfl⟩
          have hne := h2
          push_neg at hne
          cases hb : svc.isUp with
          | false => exact absurd hb (hne svc hs)
          | true => rfl

/-- Concrete server used by several witnesses below. -/
def sampleServer : ServerConfig :=
  { id := "s1", name := "S1", icon := "i", ip := "10.0.0.1"
    externalCheck := "", prometheusInstance := "", services := [] }

/-- A zero status for `sampleServer` (down, no services). -/
def sampleDownStatus : ServerStatus := initialStatus sampleServer "Prod" "c"

theorem getStatusLevel_tristate_witness :
    sampleDownStatus.isUp = false ∧
      sampleDownStatus.GetStatusLevel = StatusDown :=
  ⟨rfl, (getStatusLevel_tristate sampleDownStatus).1 rfl⟩

/-- The status computed for one configuration row of a refresh pass. -/
def rowStatus (env : Env) (cfg : Config) (clients : List String)
    (row : ServerConfig × String × String) : ServerStatus :=
  checkServer env cfg clients row.1 row.2.1 row.2.2

/-- The cache contents after folding the refresh writes of `rows` over an
initial map. -/
def cacheAfterRefresh (env : Env) (cfg : Config) (clients : List String)
    (rows : List (ServerConfig × String × String))
    (m : List (String × ServerStatus)) : List (String × ServerStatus) :=
  rows.foldl
    (fun m row => cacheInsert m row.1.id (rowStatus env cfg clients row)) m

/-- All configured servers in cloud-then-declaration order. -/
def allServers (cfg : Config) : List ServerConfig :=
  cfg.infrastructure.clouds.flatMap (fun cloud => cloud.servers)

lemma cacheLookup_cons (kv : String × ServerStatus)
    (l : List (String × ServerStatus)) (k : String) :
    cacheLookup (kv :: l) k =
      if kv.1 = k then some kv.2 else cacheLookup l k := by
  by_cases h : kv.1 = k
  · rw [cacheLookup, List.find?_cons_of_pos _ (by simpa using h), if_pos h]
  · rw [cacheLookup, List.find?_cons_of_neg _ (by simpa using h), if_neg h]
    rfl

lemma cacheLookup_insert (m : List (String × ServerStatus))
    (k k' : String) (v : ServerStatus) :
    cacheLookup (cacheInsert m k v) k' =
      if k = k' then some v else cacheLookup m k' := by
  induction m with
  | nil => by_cases h2 : k = k' <;> simp [cacheInsert, cacheLookup_cons, cacheLookup, h2]
  | cons kv rest ih =>
    by_cases h : kv.1 = k
    · simp only [cacheInsert, if_pos h, cacheLookup_cons]
      by_cases h2 : k = k'
      · simp [h2]
      · simp [h2, h ▸ h2]
    · simp only [cacheInsert, if_neg h, cacheLookup_cons, ih]
      by_cases h2 : kv.1 = k'
      · have : ¬ k = k' := fun hk => h (hk ▸ h2)
        simp [h2, this]
      · simp [h2]

lemma cacheLookup_insert_self (m : List (String × ServerStatus))
    (k : String) (v : ServerStatus) :
    cacheLookup (cacheInsert m k v) k = some v := by
  simp [cacheLookup_insert]

lemma cacheLookup_insert_ne (m : List (String × ServerStatus))
    {k k' : String} (v : ServerStatus) (h : k ≠ k') :
    cacheLookup (cacheInsert m k v) k' = cacheLookup m k' := by
  simp [cacheLookup_insert, h]

lemma refresh_fold_servers (env : Env) (cfg : Config) (clients : List String)
    (cn ci : String) (servers : List ServerConfig)
    (l : List ServerStatus) (m : List (String × ServerStatus)) :
    servers.foldl (refreshStep env cfg clients cn ci) (l, m) =
      (l ++ servers.map (fun s => checkServer env cfg clients s cn ci),
       servers.foldl
         (fun m s => cacheInsert m s.id (checkServer env cfg clients s cn ci))
         m) := by
  induction servers generalizing l m with
  | nil => simp
  | cons s rest ih =>
    simp only [List.foldl_cons, List.map_cons]
    rw [show refreshStep env cfg clients cn ci (l, m) s =
      (l ++ [checkServer env cfg clients s cn ci],
       cacheInsert m s.id (checkServer env cfg clients s cn ci)) from rfl]
    rw [ih]
    simp [List.append_assoc]

lemma refresh_fold_general (env : Env) (cfg : Config) (clients : List String)
    (clouds : List CloudConfig) (l : List ServerStatus)
    (m : List (String × ServerStatus)) :
    clouds.foldl
      (fun acc cloud =>
        cloud.servers.foldl
          (refreshStep env cfg clients cloud.name cloud.icon) acc)
      (l, m) =
      (l ++ (clouds.flatMap
          (fun cloud => cloud.servers.map
            (fun s => (s, cloud.name, cloud.icon)))).map
          (rowStatus env cfg clients),
       cacheAfterRefresh env cfg clients
         (clouds.flatMap
           (fun cloud => cloud.servers.map
             (fun s => (s, cloud.name, cloud.icon)))) m) := by
  induction clouds generalizing l m with
  | nil => simp [cacheAfterRefresh]
  | cons cloud rest ih =>
    simp only [List.foldl_cons, List.flatMap_cons]
    rw [refresh_fold_servers, ih, Prod.mk.injEq]
    refine ⟨?_, ?_⟩
    · rw [List.map_append, List.append_assoc, List.map_map]
      rfl
    · simp only [cacheAfterRefresh, List.foldl_append, List.foldl_map]
      rfl

/-- `refreshAll` characterized: the returned list is the per-row check in
cloud-then-declaration order, the new cache is the fold of the per-row
writes, and the timestamp becomes `now`. -/
lemma refreshAll_eq (c : Checker) (env : Env) (now : Int) :
    c.refreshAll env now =
      (.ok ((configRows c.config).map
        (rowStatus env c.config c.switchGateClients)),
       { c with
          cache := cacheAfterRefresh env c.config c.switchGateClients
            (configRows c.config) c.cache
          cacheTime := now }) := by
  unfold Checker.refreshAll
  rw [refresh_fold_general]
  rfl

lemma getCached_fold_servers (cache : List (String × ServerStatus))
    (servers : List ServerConfig) (acc : List ServerStatus) :
    servers.foldl
      (fun acc server =>
        match cacheLookup cache server.id with
        | some status => acc ++ [status]
        | none => acc)
      acc =
      acc ++ servers.filterMap (fun s => cacheLookup cache s.id) := by
  induction servers generalizing acc with
  | nil => simp
  | cons s rest ih =>
    simp only [List.foldl_cons, List.filterMap_cons]
    cases h : cacheLookup cache s.id with
    | some status => rw [ih]; simp
    | none => rw [ih]

lemma getCached_fold_clouds (cache : List (String × ServerStatus))
    (clouds : List CloudConfig) (acc : List ServerStatus) :
    clouds.foldl
      (fun acc cloud =>
        cloud.servers.foldl
          (fun acc server =>
            match cacheLookup cache server.id with
            | some status => acc ++ [status]
            | none => acc)
          acc)
      acc =
      acc ++ (clouds.flatMap (fun cloud => cloud.servers)).filterMap
        (fun s => cacheLookup cache s.id) := by
  induction clouds generalizing acc with
  | nil => simp
  | cons cloud rest ih =>
    simp only [List.foldl_cons, List.flatMap_cons, List.filterMap_append]
    rw [getCached_fold_servers, ih, List.append_assoc]

/-- `getCachedStatuses` characterized: the cached entries of the
configured servers, collected in cloud-then-declaration order. -/
lemma getCachedStatuses_eq (c : Checker) :
    c.getCachedStatuses =
      (allServers c.config).filterMap
        (fun s => cacheLookup c.cache s.id) := by
  unfold Checker.getCachedStatuses allServers
  rw [getCached_fold_clouds]
  simp

lemma allServers_eq_configRows_map (cfg : Config) :
    allServers cfg = (configRows cfg).map (fun row => row.1) := by
  unfold allServers configRows
  rw [List.map_flatMap]
  simp [List.map_map, Function.comp_def]

lemma cacheAfterRefresh_cons (env : Env) (cfg : Config)
    (clients : List String) (row : ServerConfig × String × String)
    (rest : List (ServerConfig × String × String))
    (m : List (String × ServerStatus)) :
    cacheAfterRefresh env cfg clients (row :: rest) m =
      cacheAfterRefresh env cfg clients rest
        (cacheInsert m row.1.id (rowStatus env cfg clients row)) := rfl

lemma cacheAfterRefresh_lookup_not_mem (env : Env) (cfg : Config)
    (clients : List String) (rows : List (ServerConfig × String × String))
    (m : List (String × ServerStatus)) {k : String}
    (h : k ∉ rows.map (fun row => row.1.id)) :
    cacheLookup (cacheAfterRefresh env cfg clients rows m) k =
      cacheLookup m k := by
  induction rows generalizing m with
  | nil => rfl
  | cons row rest ih =>
    simp only [List.map_cons, List.mem_cons, not_or] at h
    rw [cacheAfterRefresh_cons, ih _ h.2,
      cacheLookup_insert_ne _ _ (fun hk => h.1 hk.symm)]

lemma cacheAfterRefresh_lookup_mem (env : Env) (cfg : Config)
    (clients : List String) {rows : List (ServerConfig × String × String)}
    (m : List (String × ServerStatus))
    (hnd : (rows.map (fun row => row.1.id)).Nodup)
    {row : ServerConfig × String × String} (hrow : row ∈ rows) :
    cacheLookup (cacheAfterRefresh env cfg clients rows m) row.1.id =
      some (rowStatus env cfg clients row) := by
  induction rows generalizing m with
  | nil => cases hrow
  | cons r rest ih =>
    simp only [List.map_cons, List.nodup_cons] at hnd
    rcases List.mem_cons.mp hrow with heq | hmem
    · subst heq
      rw [cacheAfterRefresh_cons,
        cacheAfterRefresh_lookup_not_mem env cfg clients rest _ hnd.1,
        cacheLookup_insert_self]
    · rw [cacheAfterRefresh_cons]
      exact ih _ hnd.2 hmem

lemma filterMap_eq_map_of_forall {α β : Type _} {f : α → Option β}
    {g : α → β} {l : List α} (h : ∀ x ∈ l, f x = some (g x)) :
    l.filterMap f = l.map g := by
  induction l with
  | nil => rfl
  | cons x rest ih =>
    simp only [List.filterMap_cons, h x (List.mem_cons_self x rest),
      List.map_cons]
    rw [ih (fun y hy => h y (List.mem_cons_of_mem x hy))]

lemma getServer_fold_some (clouds : List CloudConfig) (s : ServerConfig)
    (serverID : String) :
    clouds.foldl
      (fun acc cloud => acc.orElse
        (fun _ => cloud.servers.find? (fun s => s.id = serverID)))
      (some s) = some s := by
  induction clouds with
  | nil => rfl
  | cons cloud rest ih => simpa using ih

/-- `GetServer` characterized: the first configured server with the
requested ID, in cloud-then-declaration order. -/
lemma getServer_eq_find (c : Config) (serverID : String) :
    c.GetServer serverID =
      (allServers c).find? (fun s => s.id = serverID) := by
  unfold Config.GetServer allServers
  generalize c.infrastructure.clouds = clouds
  induction clouds with
  | nil => rfl
  | cons cloud rest ih =>
    simp only [List.foldl_cons, List.flatMap_cons, List.find?_append]
    cases h : cloud.servers.find? (fun s => s.id = serverID) with
    | some s =>
      rw [show ((none : Option ServerConfig).orElse fun _ => some s) =
        some s from rfl]
      rw [getServer_fold_some]
      rfl
    | none =>
      rw [show ((none : Option ServerConfig).orElse fun _ => none) =
        none from rfl]
      rw [ih]
      exact Option.none_or.symm

lemma getServer_isSome_iff (c : Config) (serverID : String) :
    (c.GetServer serverID).isSome ↔ serverID ∈ configServerIDs c := by
  rw [getServer_eq_find, List.find?_isSome, configServerIDs,
    allServers_eq_configRows_map]
  simp [List.mem_map]

lemma getServer_eq_none_iff (c : Config) (serverID : String) :
    c.GetServer serverID = none ↔ serverID ∉ configServerIDs c := by
  rw [← getServer_isSome_iff]
  cases c.GetServer serverID <;> simp

lemma getServer_id (c : Config) {serverID : String} {s : ServerConfig}
    (h : c.GetServer serverID = some s) : s.id = serverID := by
  rw [getServer_eq_find] at h
  simpa using List.find?_some h

lemma checkPrometheusServer_id (env : Env) (status : ServerStatus)
    (server : ServerConfig) :
    (checkPrometheusServer env status server).id = status.id := by
  simp only [checkPrometheusServer]
  repeat' split
  all_goals rfl

lemma sgApplyUptime_preserves (env : Env) (sgStatus : SGStatus)
    (status : ServerStatus) :
    (sgApplyUptime env sgStatus status).id = status.id
    ∧ (sgApplyUptime env sgStatus status).isUp = status.isUp
    ∧ (sgApplyUptime env sgStatus status).cpu = status.cpu
    ∧ (sgApplyUptime env sgStatus status).memory = status.memory
    ∧ (sgApplyUptime env sgStatus status).disk = status.disk
    ∧ (sgApplyUptime env sgStatus status).services = status.services := by
  unfold sgApplyUptime
  repeat' split
  all_goals exact ⟨rfl, rfl, rfl, rfl, rfl, rfl⟩

lemma sgApplyNodeMetrics_preserves (env : Env) (upstreamKey : String)
    (status : ServerStatus) :
    (sgApplyNodeMetrics env upstreamKey status).id = status.id
    ∧ (sgApplyNodeMetrics env upstreamKey status).isUp = status.isUp
    ∧ (sgApplyNodeMetrics env upstreamKey status).services =
        status.services := by
  unfold sgApplyNodeMetrics
  cases env.sgGetNodeMetrics upstreamKey with
  | error e => exact ⟨rfl, rfl, rfl⟩
  | ok nm =>
    dsimp only
    split
    · exact ⟨rfl, rfl, rfl⟩
    · exact ⟨rfl, rfl, rfl⟩

lemma checkSwitchGateServer_id (env : Env) (clients : List String)
    (status : ServerStatus) (server : ServerConfig) (upstreamKey : String) :
    (checkSwitchGateServer env clients status server upstreamKey).id =
      status.id := by
  unfold checkSwitchGateServer
  split
  · rfl
  · split
    · rfl
    · dsimp only
      rw [(sgApplyNodeMetrics_preserves _ _ _).1,
        (sgApplyUptime_preserves _ _ _).1]

lemma applyExternalCheck_preserves (env : Env) (server : ServerConfig)
    (status : ServerStatus) :
    (applyExternalCheck env server status).id = status.id
    ∧ (applyExternalCheck env server status).isUp = status.isUp
    ∧ (applyExternalCheck env server status).cpu = status.cpu
    ∧ (applyExternalCheck env server status).memory = status.memory
    ∧ (applyExternalCheck env server status).disk = status.disk
    ∧ (applyExternalCheck env server status).services = status.services := by
  unfold applyExternalCheck
  split <;> exact ⟨rfl, rfl, rfl, rfl, rfl, rfl⟩

lemma checkServer_id (env : Env) (cfg : Config) (clients : List String)
    (server : ServerConfig) (cn ci : String) :
    (checkServer env cfg clients server cn ci).id = server.id := by
  simp only [checkServer]
  rw [(applyExternalCheck_preserves env server _).1]
  split
  · rw [checkSwitchGateServer_id]
    rfl
  · rw [checkPrometheusServer_id]
    rfl

lemma getStatusLevel_of_not_up {s : ServerStatus} (h : s.isUp = false) :
    s.GetStatusLevel = StatusDown := by
  unfold ServerStatus.GetStatusLevel
  rw [h]
  rfl

lemma getStatusLevel_degraded_of_service_down {s : ServerStatus}
    (hup : s.isUp = true) {svc : ServiceStatus} (hmem : svc ∈ s.services)
    (hdown : svc.isUp = false) : s.GetStatusLevel = StatusDegraded := by
  unfold ServerStatus.GetStatusLevel
  rw [hup]
  have hany : (s.services.any fun svc => !svc.isUp) = true :=
    List.any_eq_true.mpr ⟨svc, hmem, by simp [hdown]⟩
  simp [hany]

lemma checkSwitchGateServer_no_client (env : Env) (clients : List String)
    (status : ServerStatus) (server : ServerConfig) (upstreamKey : String)
    (h : upstreamKey ∉ clients) :
    checkSwitchGateServer env clients status server upstreamKey =
      { status with isUp := false } := by
  unfold checkSwitchGateServer
  rw [if_pos h]

lemma checkSwitchGateServer_error (env : Env) (clients : List String)
    (status : ServerStatus) (server : ServerConfig) (upstreamKey : String)
    (e : String) (hcl : upstreamKey ∈ clients)
    (herr : env.sgGetStatus upstreamKey = .error e) :
    checkSwitchGateServer env clients status server upstreamKey =
      { status with
        isUp := false
        services := status.services ++
          [{ name := "switch-gate", job := "", port := 9090
             isUp := false, error := e }] } := by
  unfold checkSwitchGateServer
  rw [if_neg (not_not.mpr hcl), herr]

lemma checkSwitchGateServer_ok (env : Env) (clients : List String)
    (status : ServerStatus) (server : ServerConfig) (upstreamKey : String)
    (sg : SGStatus) (hcl : upstreamKey ∈ clients)
    (hok : env.sgGetStatus upstreamKey = .ok sg) :
    checkSwitchGateServer env clients status server upstreamKey =
      (let status1 := sgApplyNodeMetrics env upstreamKey
        (sgApplyUptime env sg { status with isUp := true })
       { status1 with
          services := status1.services ++
            server.services.map (fun svc => sgServiceStatus svc status1.memory) }) := by
  unfold checkSwitchGateServer
  rw [if_neg (not_not.mpr hcl), hok]

lemma checkServer_sg (env : Env) (cfg : Config) (clients : List String)
    (server : ServerConfig) (cn ci : String)
    (h1 : cfg.GetUpstreamByIP server.ip ≠ "")
    (h2 : cfg.IsSwitchGateServer server.ip = true) :
    checkServer env cfg clients server cn ci =
      applyExternalCheck env server
        (checkSwitchGateServer env clients (initialStatus server cn ci)
          server (cfg.GetUpstreamByIP server.ip)) := by
  unfold checkServer
  dsimp only
  rw [if_pos ⟨h1, h2⟩]

lemma sgApplyNodeMetrics_error (env : Env) (upstreamKey : String)
    (status : ServerStatus) (e : String)
    (h : env.sgGetNodeMetrics upstreamKey = .error e) :
    sgApplyNodeMetrics env upstreamKey status = status := by
  unfold sgApplyNodeMetrics
  rw [h]

lemma sgServiceStatus_name (svc : ServiceConfig) (memory : ℚ) :
    (sgServiceStatus svc memory).name = svc.name := rfl

lemma sgServiceStatus_isUp_of_ne (svc : ServiceConfig) (memory : ℚ)
    (h : svc.name ≠ "node_exporter") :
    (sgServiceStatus svc memory).isUp = true := by
  show (if svc.name = "switch-gate" then true
    else if svc.name = "gost" then true
    else if svc.name = "node_exporter" then decide (memory > 0)
    else true) = true
  split_ifs <;> simp_all

lemma sgServiceStatus_isUp_node {svc : ServiceConfig} (memory : ℚ)
    (h : svc.name = "node_exporter") :
    (sgServiceStatus svc memory).isUp = decide (memory > 0) := by
  show (if svc.name = "switch-gate" then true
    else if svc.name = "gost" then true
    else if svc.name = "node_exporter" then decide (memory > 0)
    else true) = decide (memory > 0)
  rw [h]
  simp

/-- A concrete environment in which every collaborator fails. -/
def env0 : Env :=
  { promIsUp := fun _ => .error "prometheus unreachable"
    promGetCPU := fun _ => .error "no data"
    promGetMemory := fun _ => .error "no data"
    promGetMemoryBytes := fun _ => .error "no data"
    promGetDisk := fun _ => .error "no data"
    promGetDiskBytes := fun _ => .error "no data"
    promGetUptime := fun _ => .error "no data"
    promIsServiceUp := fun _ _ => (false, some "no data")
    sgGetStatus := fun _ => .error "ssh dial: connection refused"
    sgGetNodeMetrics := fun _ => .error "ssh dial: connection refused"
    checkExternal := fun _ => (false, 0, some "connection failed")
    parseDuration := fun _ => none }

/-- A tunnel-flagged upstream whose IP matches `sampleServer`. -/
def sgUpstream : Upstream :=
  { name := "Primary", ip := "10.0.0.1", user := "root"
    switchGate := true, switchGatePort := 9090 }

/-- A configuration routing `sampleServer` onto the switch-gate path. -/
def sgConfig : Config :=
  { upstreams := [("primary", sgUpstream)]
    infrastructure :=
      { enabled := true, prometheusURL := "http://localhost:9090"
        clouds := [{ name := "Prod", icon := "c", servers := [sampleServer] }] } }

/-- A checker over `sgConfig` with no switch-gate client at all. -/
def sgCheckerNoClient : Checker :=
  { config := sgConfig, switchGateClients := [], cache := []
    cacheTime := 0, cacheTTL := DefaultCacheTTL }

/-- C5 counterexample: a tunneled server whose upstream has no switch-gate
client.  The fetch cannot happen, the server is marked down — but no
synthetic service entry is appended: `services` is `[]`, not a one-element
list, contradicting the claim for this failure mode. -/
theorem missing_client_no_synthetic_entry :
    ((sgCheckerNoClient.CheckServerForce env0 "s1").1.toOption.map
      (fun st => (st.isUp, st.services))) = some (false, []) := by
  rfl

/-- C5 amended: on the tunneled remote-agent path, when a tunnel client
exists for the upstream and the status fetch fails with error text `e`,
the server is marked down with exactly one synthetic service entry (name
"switch-gate", up = false, error = the failure text `e`, hence non-empty
whenever `e` is) and level Down; when no tunnel client exists for the
upstream the server is marked down (level Down) but without any synthetic
service entry. -/
theorem sg_fetch_failure_marks_down (env : Env) (cfg : Config)
    (clients : List String) (server : ServerConfig) (cn ci : String)
    (h1 : cfg.GetUpstreamByIP server.ip ≠ "")
    (h2 : cfg.IsSwitchGateServer server.ip = true) :
    (∀ e, cfg.GetUpstreamByIP server.ip ∈ clients →
      env.sgGetStatus (cfg.GetUpstreamByIP server.ip) = .error e →
      (checkServer env cfg clients server cn ci).isUp = false
      ∧ (checkServer env cfg clients server cn ci).services =
          [{ name := "switch-gate", job := "", port := 9090
             isUp := false, error := e }]
      ∧ (checkServer env cfg clients server cn ci).GetStatusLevel =
          StatusDown)
    ∧ (cfg.GetUpstreamByIP server.ip ∉ clients →
      (checkServer env cfg clients server cn ci).isUp = false
      ∧ (checkServer env cfg clients server cn ci).services = []
      ∧ (checkServer env cfg clients server cn ci).GetStatusLevel =
          StatusDown) := by
  have hch := checkServer_sg env cfg clients server cn ci h1 h2
  constructor
  · intro e hcl herr
    rw [checkSwitchGateServer_error env clients (initialStatus server cn ci)
      server (cfg.GetUpstreamByIP server.ip) e hcl herr] at hch
    have hup : (checkServer env cfg clients server cn ci).isUp = false := by
      rw [hch, (applyExternalCheck_preserves _ _ _).2.1]
    refine ⟨hup, ?_, getStatusLevel_of_not_up hup⟩
    rw [hch, (applyExternalCheck_preserves _ _ _).2.2.2.2.2]
    rfl
  · intro hcl
    rw [checkSwitchGateServer_no_client env clients (initialStatus server cn ci)
      server (cfg.GetUpstreamByIP server.ip) hcl] at hch
    have hup : (checkServer env cfg clients server cn ci).isUp = false := by
      rw [hch, (applyExternalCheck_preserves _ _ _).2.1]
    refine ⟨hup, ?_, getStatusLevel_of_not_up hup⟩
    rw [hch, (applyExternalCheck_preserves _ _ _).2.2.2.2.2]
    rfl

theorem sg_fetch_failure_marks_down_witness :
    (checkServer env0 sgConfig ["primary"] sampleServer "Prod" "c").isUp =
      false
    ∧ (checkServer env0 sgConfig ["primary"] sampleServer "Prod" "c").services =
        [{ name := "switch-gate", job := "", port := 9090, isUp := false
           error := "ssh dial: connection refused" }]
    ∧ (checkServer env0 sgConfig ["primary"] sampleServer "Prod" "c").GetStatusLevel
        = StatusDown :=
  (sg_fetch_failure_marks_down env0 sgConfig ["primary"] sampleServer "Prod" "c"
      (by decide) (by decide)).1
    "ssh dial: connection refused" (by decide) rfl

/-- C9: on a successful tunneled fetch, every declared service not named
"node_exporter" is reported up unconditionally, while a declared
"node_exporter" is reported up iff the snapshot's memory field is strictly
positive; hence a failed best-effort node-metrics fetch (which leaves
memory at 0) with "node_exporter" declared yields level Degraded even
though the server is up. -/
theorem sg_service_mapping_node_exporter (env : Env) (cfg : Config)
    (clients : List String) (server : ServerConfig) (cn ci : String)
    (sg : SGStatus)
    (h1 : cfg.GetUpstreamByIP server.ip ≠ "")
    (h2 : cfg.IsSwitchGateServer server.ip = true)
    (hcl : cfg.GetUpstreamByIP server.ip ∈ clients)
    (hok : env.sgGetStatus (cfg.GetUpstreamByIP server.ip) = .ok sg) :
    (checkServer env cfg clients server cn ci).isUp = true
    ∧ (checkServer env cfg clients server cn ci).services =
        server.services.map (fun svc =>
          sgServiceStatus svc (checkServer env cfg clients server cn ci).memory)
    ∧ (∀ entry ∈ (checkServer env cfg clients server cn ci).services,
        entry.name ≠ "node_exporter" → entry.isUp = true)
    ∧ (∀ entry ∈ (checkServer env cfg clients server cn ci).services,
        entry.name = "node_exporter" →
          (entry.isUp = true ↔
            0 < (checkServer env cfg clients server cn ci).memory))
    ∧ (∀ e, env.sgGetNodeMetrics (cfg.GetUpstreamByIP server.ip) = .error e →
        (checkServer env cfg clients server cn ci).memory = 0)
    ∧ (∀ e, env.sgGetNodeMetrics (cfg.GetUpstreamByIP server.ip) = .error e →
        "node_exporter" ∈ server.services.map (fun svc => svc.name) →
        (checkServer env cfg clients server cn ci).isUp = true
        ∧ (checkServer env cfg clients server cn ci).GetStatusLevel =
            StatusDegraded) := by
  have hch := checkServer_sg env cfg clients server cn ci h1 h2
  rw [checkSwitchGateServer_ok env clients (initialStatus server cn ci)
    server (cfg.GetUpstreamByIP server.ip) sg hcl hok] at hch
  dsimp only at hch
  have hXup : (sgApplyNodeMetrics env (cfg.GetUpstreamByIP server.ip)
      (sgApplyUptime env sg
        { initialStatus server cn ci with isUp := true })).isUp = true := by
    rw [(sgApplyNodeMetrics_preserves _ _ _).2.1,
      (sgApplyUptime_preserves _ _ _).2.1]
  have hXserv : (sgApplyNodeMetrics env (cfg.GetUpstreamByIP server.ip)
      (sgApplyUptime env sg
        { initialStatus server cn ci with isUp := true })).services = [] := by
    rw [(sgApplyNodeMetrics_preserves _ _ _).2.2,
      (sgApplyUptime_preserves _ _ _).2.2.2.2.2]
    rfl
  have hup : (checkServer env cfg clients server cn ci).isUp = true := by
    rw [hch, (applyExternalCheck_preserves _ _ _).2.1]
    exact hXup
  have hmem : (checkServer env cfg clients server cn ci).memory =
      (sgApplyNodeMetrics env (cfg.GetUpstreamByIP server.ip)
        (sgApplyUptime env sg
          { initialStatus server cn ci with isUp := true })).memory := by
    rw [hch, (applyExternalCheck_preserves _ _ _).2.2.2.1]
  have hserv : (checkServer env cfg clients server cn ci).services =
      server.services.map (fun svc => sgServiceStatus svc
        (sgApplyNodeMetrics env (cfg.GetUpstreamByIP server.ip)
          (sgApplyUptime env sg
            { initialStatus server cn ci with isUp := true })).memory) := by
    rw [hch, (applyExternalCheck_preserves _ _ _).2.2.2.2.2]
    show (sgApplyNodeMetrics env (cfg.GetUpstreamByIP server.ip)
        (sgApplyUptime env sg
          { initialStatus server cn ci with isUp := true })).services ++ _ = _
    rw [hXserv]
    rfl
  have hmem0 : ∀ e,
      env.sgGetNodeMetrics (cfg.GetUpstreamByIP server.ip) = .error e →
      (checkServer env cfg clients server cn ci).memory = 0 := by
    intro e herr
    rw [hmem, sgApplyNodeMetrics_error env _ _ e herr,
      (sgApplyUptime_preserves _ _ _).2.2.2.1]
    rfl
  refine ⟨hup, ?_, ?_, ?_, hmem0, ?_⟩
  · rw [hserv, hmem]
  · intro entry hentry hne
    rw [hserv] at hentry
    obtain ⟨svc, hsvc, rfl⟩ := List.mem_map.mp hentry
    exact sgServiceStatus_isUp_of_ne svc _ (fun hn => hne hn)
  · intro entry hentry hname
    rw [hserv] at hentry
    obtain ⟨svc, hsvc, rfl⟩ := List.mem_map.mp hentry
    rw [sgServiceStatus_isUp_node _ hname, hmem]
    simp
  · intro e herr hdecl
    refine ⟨hup, ?_⟩
    obtain ⟨svc, hsvc, hname⟩ := List.mem_map.mp hdecl
    have hment : sgServiceStatus svc
        (sgApplyNodeMetrics env (cfg.GetUpstreamByIP server.ip)
          (sgApplyUptime env sg
            { initialStatus server cn ci with isUp := true })).memory
        ∈ (checkServer env cfg clients server cn ci).services := by
      rw [hserv]
      exact List.mem_map.mpr ⟨svc, hsvc, rfl⟩
    have hX0 : (sgApplyNodeMetrics env (cfg.GetUpstreamByIP server.ip)
        (sgApplyUptime env sg
          { initialStatus server cn ci with isUp := true })).memory = 0 := by
      rw [← hmem]
      exact hmem0 e herr
    have hdown : (sgServiceStatus svc
        (sgApplyNodeMetrics env (cfg.GetUpstreamByIP server.ip)
          (sgApplyUptime env sg
            { initialStatus server cn ci with isUp := true })).memory).isUp
        = false := by
      rw [sgServiceStatus_isUp_node _ hname, hX0]
      norm_num
    exact getStatusLevel_degraded_of_service_down hup hment hdown

/-- A declared node_exporter service. -/
def nodeService : ServiceConfig :=
  { name := "node_exporter", job := "", port := 9100 }

/-- A tunneled server declaring a node_exporter service. -/
def sgServer2 : ServerConfig :=
  { id := "s2", name := "S2", icon := "i", ip := "10.0.0.1"
    externalCheck := "", prometheusInstance := "", services := [nodeService] }

/-- A concrete successful remote-agent status document. -/
def sampleSGStatus : SGStatus :=
  { mode := "direct", modeHealthy := none, modeError := none
    uptime := "72h", connections := 3
    traffic := { directMB := 1, warpMB := 2, homeMB := 3, totalMB := 6 }
    home := { limitMB := 100, usedMB := 10, remainingMB := 90, costUSD := 1 }
    available := ["direct"] }

/-- `env0` but with a successful remote-agent status fetch (node metrics
still failing). -/
def envSGOk : Env := { env0 with sgGetStatus := fun _ => .ok sampleSGStatus }

theorem sg_service_mapping_node_exporter_witness :
    (checkServer envSGOk sgConfig ["primary"] sgServer2 "Prod" "c").isUp =
      true
    ∧ (checkServer envSGOk sgConfig ["primary"] sgServer2 "Prod" "c").GetStatusLevel
        = StatusDegraded :=
  (sg_service_mapping_node_exporter envSGOk sgConfig ["primary"] sgServer2
      "Prod" "c" sampleSGStatus (by decide) (by decide) (by decide)
      rfl).2.2.2.2.2
    "ssh dial: connection refused" rfl (by decide)

/-- C7: `InvalidateCache` empties the map and zeroes the timestamp, the
next `CheckAll` performs a full refresh rather than serving cached data,
and an empty cache map is never judged valid whatever the stored
timestamp. -/
theorem invalidateCache_forces_refresh (c : Checker) :
    c.InvalidateCache.cache = []
    ∧ c.InvalidateCache.cacheTime = 0
    ∧ (∀ (env : Env) (now : Int),
        c.InvalidateCache.CheckAll env now =
          c.InvalidateCache.refreshAll env now)
    ∧ (∀ (c' : Checker) (now : Int), c'.cache = [] →
        c'.isCacheValid now = false) := by
  refine ⟨rfl, rfl, fun env now => ?_, fun c' now h => ?_⟩
  · unfold Checker.CheckAll
    rw [if_neg]
    simp [Checker.isCacheValid, Checker.InvalidateCache]
  · simp [Checker.isCacheValid, h]

/-- The sample checker: one cloud, one server, empty cache. -/
def sampleChecker : Checker :=
  { config :=
      { upstreams := []
        infrastructure :=
          { enabled := true, prometheusURL := "http://localhost:9090"
            clouds := [{ name := "Prod", icon := "c"
                         servers := [sampleServer] }] } }
    switchGateClients := [], cache := [], cacheTime := 0
    cacheTTL := DefaultCacheTTL }

theorem invalidateCache_forces_refresh_witness :
    sampleChecker.cache = [] ∧ sampleChecker.isCacheValid 5 = false :=
  ⟨rfl, (invalidateCache_forces_refresh sampleChecker).2.2.2 sampleChecker 5 rfl⟩

lemma configServerIDs_eq_allServers_map (cfg : Config) :
    configServerIDs cfg = (allServers cfg).map (fun s => s.id) := by
  rw [allServers_eq_configRows_map, List.map_map]
  rfl

lemma map_id_filterMap_lookup (cache : List (String × ServerStatus))
    (servers : List ServerConfig)
    (hkeys : ∀ k st, cacheLookup cache k = some st → st.id = k) :
    ((servers.filterMap (fun s => cacheLookup cache s.id)).map
        (fun st => st.id)) =
      (servers.map (fun s => s.id)).filter
        (fun k => (cacheLookup cache k).isSome) := by
  induction servers with
  | nil => rfl
  | cons s rest ih =>
    simp only [List.filterMap_cons, List.map_cons, List.filter_cons]
    cases h : cacheLookup cache s.id with
    | some st =>
      have hid : st.id = s.id := hkeys _ _ h
      simp [h, hid, ih]
    | none =>
      simp [h, ih]

/-- C6: refresh passes and the cache read path enumerate servers in
cloud-then-declaration configuration order: a refresh returns exactly the
per-row checks of `configRows` (so the result's ID sequence is the
flattened configuration ID sequence), and the cache read path returns the
cached entries in that same order (its ID sequence is the configuration ID
sequence filtered to the cached IDs). -/
theorem results_follow_config_order (c : Checker) (env : Env) (now : Int) :
    ((c.refreshAll env now).1 =
      .ok ((configRows c.config).map
        (rowStatus env c.config c.switchGateClients)))
    ∧ (∀ l, (c.refreshAll env now).1 = .ok l →
        l.map (fun st => st.id) = configServerIDs c.config)
    ∧ (c.getCachedStatuses =
        (allServers c.config).filterMap
          (fun s => cacheLookup c.cache s.id))
    ∧ ((∀ k st, cacheLookup c.cache k = some st → st.id = k) →
        c.getCachedStatuses.map (fun st => st.id) =
          (configServerIDs c.config).filter
            (fun k => (cacheLookup c.cache k).isSome)) := by
  refine ⟨?_, ?_, getCachedStatuses_eq c, ?_⟩
  · rw [refreshAll_eq]
  · intro l hl
    rw [refreshAll_eq] at hl
    have := Except.ok.inj hl
    subst this
    rw [List.map_map]
    unfold configServerIDs
    refine List.map_congr_left (fun row hrow => ?_)
    exact checkServer_id env c.config c.switchGateClients row.1 row.2.1 row.2.2
  · intro hkeys
    rw [getCachedStatuses_eq, configServerIDs_eq_allServers_map,
      map_id_filterMap_lookup c.cache (allServers c.config) hkeys]

theorem results_follow_config_order_witness :
    (((configRows sampleChecker.config).map
        (rowStatus env0 sampleChecker.config
          sampleChecker.switchGateClients)).map (fun st => st.id) =
      configServerIDs sampleChecker.config)
    ∧ (sampleChecker.getCachedStatuses.map (fun st => st.id) =
        (configServerIDs sampleChecker.config).filter
          (fun k => (cacheLookup sampleChecker.cache k).isSome)) :=
  ⟨(results_follow_config_order sampleChecker env0 0).2.1 _ rfl,
   (results_follow_config_order sampleChecker env0 0).2.2.2
     (fun _ _ h => Option.noConfusion h)⟩

/-- C4: `CheckAll` and `CheckAllForce` always succeed; `CheckServerForce`
returns an error iff the requested ID is absent from the configuration;
`CheckServer` does too whenever every cached key is a configured ID (an
invariant of reachable states).  All of this holds for every environment:
fetch/probe failures of any kind never surface as an error. -/
theorem check_error_iff_unknown_id (c : Checker) (env : Env) (now : Int)
    (serverID : String) :
    (∃ l, (c.CheckAll env now).1 = .ok l)
    ∧ (∃ l, (c.CheckAllForce env now).1 = .ok l)
    ∧ ((∃ e, (c.CheckServerForce env serverID).1 = .error e) ↔
        serverID ∉ configServerIDs c.config)
    ∧ ((∀ k, (cacheLookup c.cache k).isSome →
          k ∈ configServerIDs c.config) →
        ((∃ e, (c.CheckServer env now serverID).1 = .error e) ↔
          serverID ∉ configServerIDs c.config)) := by
  have himpl : ∀ sid,
      (∃ e, (c.checkServerForceImpl env sid).1 = .error e) ↔
        sid ∉ configServerIDs c.config := by
    intro sid
    unfold Checker.checkServerForceImpl
    cases hgs : c.config.GetServer sid with
    | none =>
      constructor
      · intro _
        exact (getServer_eq_none_iff _ _).mp hgs
      · intro _
        exact ⟨_, rfl⟩
    | some server =>
      constructor
      · rintro ⟨e, he⟩
        exact absurd he (by simp)
      · intro hnot
        exact absurd ((getServer_isSome_iff _ _).mp (by rw [hgs]; rfl)) hnot
  refine ⟨?_, ⟨_, by rw [Checker.CheckAllForce, refreshAll_eq]⟩, himpl serverID, ?_⟩
  · unfold Checker.CheckAll
    split
    · exact ⟨_, rfl⟩
    · exact ⟨_, by rw [refreshAll_eq]⟩
  · intro hkeys
    unfold Checker.CheckServer
    split
    · cases hlook : cacheLookup c.cache serverID with
      | some st =>
        simp only [hlook]
        constructor
        · rintro ⟨e, he⟩
          exact absurd he (by simp)
        · intro hnot
          exact absurd (hkeys serverID (by rw [hlook]; rfl)) hnot
      | none =>
        simp only [hlook]
        exact himpl serverID
    · exact himpl serverID

theorem check_error_iff_unknown_id_witness :
    (∃ e, (sampleChecker.CheckServer env0 0 "zz").1 = .error e) ↔
      "zz" ∉ configServerIDs sampleChecker.config :=
  (check_error_iff_unknown_id sampleChecker env0 0 "zz").2.2.2
    (fun k h => by simp [cacheLookup, sampleChecker] at h)

/-- C10: when the fleet-wide cache is fresh but holds no entry for the
requested ID, `CheckServer` equals the single-server force fetch: it
errors exactly for an unconfigured ID and any status it returns carries
the requested ID (never another server's data). -/
theorem checkServer_cache_miss_falls_through (c : Checker) (env : Env)
    (now : Int) (serverID : String)
    (hvalid : c.isCacheValid now = true)
    (hmiss : cacheLookup c.cache serverID = none) :
    c.CheckServer env now serverID = c.CheckServerForce env serverID
    ∧ (serverID ∉ configServerIDs c.config →
        (c.CheckServer env now serverID).1 =
          .error ("server not found: " ++ serverID))
    ∧ (∀ st, (c.CheckServer env now serverID).1 = .ok st →
        st.id = serverID) := by
  have heq : c.CheckServer env now serverID =
      c.checkServerForceImpl env serverID := by
    unfold Checker.CheckServer
    rw [if_pos hvalid, hmiss]
  refine ⟨heq, ?_, ?_⟩
  · intro hnot
    rw [heq]
    unfold Checker.checkServerForceImpl
    rw [(getServer_eq_none_iff _ _).mpr hnot]
  · intro st hst
    rw [heq] at hst
    unfold Checker.checkServerForceImpl at hst
    cases hgs : c.config.GetServer serverID with
    | none =>
      rw [hgs] at hst
      exact absurd hst (by simp)
    | some server =>
      rw [hgs] at hst
      have hst2 := Except.ok.inj hst
      rw [← hst2, checkServer_id]
      exact getServer_id c.config hgs

/-- A checker whose cache is fresh but holds an entry only for an
unrelated key. -/
def cachedChecker : Checker :=
  { sampleChecker with cache := [("other", sampleDownStatus)] }

theorem checkServer_cache_miss_falls_through_witness :
    cachedChecker.isCacheValid 5 = true
    ∧ cacheLookup cachedChecker.cache "s1" = none
    ∧ cachedChecker.CheckServer env0 5 "s1" =
        cachedChecker.CheckServerForce env0 "s1" :=
  ⟨by decide, by decide,
    (checkServer_cache_miss_falls_through cachedChecker env0 5 "s1"
      (by decide) (by decide)).1⟩

lemma refreshAll_then_cached (c : Checker) (env₁ : Env) (t : Int)
    (hnd : (configServerIDs c.config).Nodup) :
    ((c.refreshAll env₁ t).2).getCachedStatuses =
      (configRows c.config).map
        (rowStatus env₁ c.config c.switchGateClients) := by
  rw [refreshAll_eq, getCachedStatuses_eq]
  show (allServers c.config).filterMap
    (fun s => cacheLookup (cacheAfterRefresh env₁ c.config
      c.switchGateClients (configRows c.config) c.cache) s.id) = _
  rw [allServers_eq_configRows_map, List.filterMap_map]
  exact filterMap_eq_map_of_forall (fun row hrow =>
    cacheAfterRefresh_lookup_mem env₁ c.config c.switchGateClients
      c.cache hnd hrow)

lemma refreshAll_cache_valid (c : Checker) (env₁ : Env) (t t₂ : Int)
    (httl : t₂ - t < c.cacheTTL)
    (hne : (c.refreshAll env₁ t).2.cache ≠ []) :
    ((c.refreshAll env₁ t).2).isCacheValid t₂ = true := by
  rw [refreshAll_eq] at hne ⊢
  unfold Checker.isCacheValid
  rw [if_neg (fun h0 => hne (List.length_eq_zero.mp h0))]
  exact decide_eq_true httl

/-- C2: if a `CheckAll` performs a refresh at time `t` (stale cache going
in, distinct configured IDs, non-empty resulting cache), then any second
`CheckAll` strictly within the TTL returns the identical ordered list and
leaves the checker unchanged, and it does so for EVERY environment — hence
no per-server fetch is performed.  `CheckAllForce` always runs the full
refresh, re-checking every configured server, regardless of cache age. -/
theorem checkAll_ttl_idempotent (c : Checker) (env₁ : Env) (t t₂ : Int)
    (hnd : (configServerIDs c.config).Nodup)
    (hstale : c.isCacheValid t = false)
    (httl : t₂ - t < c.cacheTTL)
    (hne : (c.CheckAll env₁ t).2.cache ≠ []) :
    (∀ env₂ : Env,
      (c.CheckAll env₁ t).2.CheckAll env₂ t₂ = c.CheckAll env₁ t)
    ∧ (∀ (c' : Checker) (env : Env) (now : Int),
        c'.CheckAllForce env now = c'.refreshAll env now
        ∧ (c'.refreshAll env now).1 =
          .ok ((configRows c'.config).map
            (rowStatus env c'.config c'.switchGateClients))) := by
  have hca : c.CheckAll env₁ t = c.refreshAll env₁ t := by
    unfold Checker.CheckAll
    rw [if_neg (by rw [hstale]; exact Bool.false_ne_true)]
  rw [hca] at hne
  refine ⟨fun env₂ => ?_, fun c' env now => ⟨rfl, by rw [refreshAll_eq]⟩⟩
  rw [hca]
  unfold Checker.CheckAll
  rw [if_pos (refreshAll_cache_valid c env₁ t t₂ httl hne)]
  rw [refreshAll_then_cached c env₁ t hnd]
  rw [refreshAll_eq]

theorem checkAll_ttl_idempotent_witness :
    ((sampleChecker.CheckAll env0 0).2.CheckAll env0 10 =
      sampleChecker.CheckAll env0 0)
    ∧ (sampleChecker.CheckAllForce env0 0 =
        sampleChecker.refreshAll env0 0) :=
  ⟨(checkAll_ttl_idempotent sampleChecker env0 0 10 (by decide) (by decide)
      (by decide) (by decide)).1 env0,
   ((checkAll_ttl_idempotent sampleChecker env0 0 10 (by decide) (by decide)
      (by decide) (by decide)).2 sampleChecker env0 0).1⟩

/-- C3 counterexample: `CheckServerForce` fetches a status successfully
(result is `ok`) yet leaves the checker — in particular its cache —
completely untouched: afterwards the cache still has no entry under the
requested ID, contradicting the claimed cache write. -/
theorem checkServerForce_no_cache_write :
    (sampleChecker.CheckServerForce env0 "s1").1.toOption.isSome = true
    ∧ (sampleChecker.CheckServerForce env0 "s1").2 = sampleChecker
    ∧ cacheLookup (sampleChecker.CheckServerForce env0 "s1").2.cache "s1" =
        none :=
  ⟨rfl, rfl, rfl⟩

/-- C3 amended: a refresh pass (`refreshAll`, the path taken by `CheckAll`
on a stale cache and by `CheckAllForce`) writes every assembled status into
the cache under its server's ID, replacing any prior entry; the
single-server paths (`CheckServerForce`, and `CheckServer` falling through
to a force fetch) return the fresh status without writing it into the
cache — the checker state is unchanged. -/
theorem refresh_writes_cache_single_does_not (c : Checker) (env : Env)
    (now : Int) (serverID : String)
    (hnd : (configServerIDs c.config).Nodup) :
    (∀ row ∈ configRows c.config,
      cacheLookup (c.refreshAll env now).2.cache row.1.id =
        some (rowStatus env c.config c.switchGateClients row))
    ∧ (c.CheckServerForce env serverID).2 = c := by
  constructor
  · intro row hrow
    rw [refreshAll_eq]
    exact cacheAfterRefresh_lookup_mem env c.config c.switchGateClients
      c.cache hnd hrow
  · unfold Checker.CheckServerForce Checker.checkServerForceImpl
    cases c.config.GetServer serverID <;> rfl

theorem refresh_writes_cache_single_does_not_witness :
    ((sampleServer, "Prod", "c") ∈ configRows sampleChecker.config)
    ∧ cacheLookup (sampleChecker.refreshAll env0 0).2.cache "s1" =
        some (rowStatus env0 sampleChecker.config []
          (sampleServer, "Prod", "c"))
    ∧ (sampleChecker.CheckServerForce env0 "s1").2 = sampleChecker :=
  ⟨by decide,
   (refresh_writes_cache_single_does_not sampleChecker env0 0 "s1"
      (by decide)).1 (sampleServer, "Prod", "c") (by decide),
   (refresh_writes_cache_single_does_not sampleChecker env0 0 "s1"
      (by decide)).2⟩
